import Mathlib

/-! Model introspection helpers of `mlmodel/src/Utils.cpp`.

A shallow embedding of the custom-layer detector (`hasCustomLayer`,
`getCustomLayerNamesAndDescriptions`) and of the weight-precision classifier
(`getLSTMWeightParamType`, `getWeightParamType`, `hasfp16Weights`), all built on
the layer locator `getNNSpec`.

Conventions of the embedding:

* a protobuf `oneof` is an inductive type, one constructor per case;
* a protobuf repeated field is a `List`; reading it at an index is fallible
  (`Fault.indexOutOfRange`), as `RepeatedPtrField::Get` has no defined result
  outside `0 ≤ index < size`;
* a `for (int i = 0; i < size; i++)` loop is a function of the index `i`
  recursing on a fuel counter; the entry points start it with `size + 1` fuel
  and running dry is the separate fault `Fault.fuelExhausted`.
-/

namespace CoreML

/-! ## Data model -/

/-- Modelled from the spec: the enumeration `WeightParamType` is declared in
`Utils.hpp`, which is not among the sources. The spec gives a weight tensor
exactly one of two storage encodings, 32-bit float and 16-bit float. -/
inductive WeightParamType
  | FLOAT32
  | FLOAT16
deriving DecidableEq, Repr

/-- Modelled from the spec: the message `WeightParams` is declared by the schema,
which is not among the sources. The spec gives a weight tensor two underlying
storage representations, one per encoding; the payloads are kept as raw words. -/
structure WeightParams where
  floatValue : List Nat
  float16Value : List Nat
deriving DecidableEq, Repr

/-- Modelled from the spec: the helper `valueType` is defined in `Utils.hpp`, which
is not among the sources. The spec derives the precision tag from which
representation is non-empty, prefers 16-bit if it is present, and treats a tensor
with neither representation populated as not 16-bit (defaulting to 32-bit). -/
def valueType (param : WeightParams) : WeightParamType :=
  if param.float16Value.isEmpty then WeightParamType.FLOAT32 else WeightParamType.FLOAT16

/-- Fields `weights()` and `bias()` read from `layer.convolution()`. -/
structure ConvolutionLayerParams where
  weights : WeightParams
  bias : WeightParams
deriving Repr

/-- Fields `weights()` and `bias()` read from `layer.innerproduct()`. -/
structure InnerProductLayerParams where
  weights : WeightParams
  bias : WeightParams
deriving Repr

/-- Fields `gamma()`, `beta()`, `mean()`, `variance()` read from `layer.batchnorm()`. -/
structure BatchnormLayerParams where
  gamma : WeightParams
  beta : WeightParams
  mean : WeightParams
  variance : WeightParams
deriving Repr

/-- Field `data()` read from `layer.loadconstant()`. -/
structure LoadConstantLayerParams where
  data : WeightParams
deriving Repr

/-- Fields `scale()` and `bias()` read from `layer.scale()`. -/
structure ScaleLayerParams where
  scale : WeightParams
  bias : WeightParams
deriving Repr

/-- Fields read from `layer.simplerecurrent()`. -/
structure SimpleRecurrentLayerParams where
  weightMatrix : WeightParams
  recursionMatrix : WeightParams
  biasVector : WeightParams
deriving Repr

/-- Fields read from `layer.gru()`. -/
structure GRULayerParams where
  updateGateWeightMatrix : WeightParams
  resetGateWeightMatrix : WeightParams
  outputGateWeightMatrix : WeightParams
  updateGateRecursionMatrix : WeightParams
  resetGateRecursionMatrix : WeightParams
  outputGateRecursionMatrix : WeightParams
  updateGateBiasVector : WeightParams
  resetGateBiasVector : WeightParams
  outputGateBiasVector : WeightParams
deriving Repr

/-- The recurrent-cell weight bundle: the fifteen tensors read by
`getLSTMWeightParamType`. -/
structure LSTMWeightParams where
  inputGateWeightMatrix : WeightParams
  forgetGateWeightMatrix : WeightParams
  blockInputWeightMatrix : WeightParams
  outputGateWeightMatrix : WeightParams
  inputGateRecursionMatrix : WeightParams
  forgetGateRecursionMatrix : WeightParams
  blockInputRecursionMatrix : WeightParams
  outputGateRecursionMatrix : WeightParams
  inputGateBiasVector : WeightParams
  forgetGateBiasVector : WeightParams
  blockInputBiasVector : WeightParams
  outputGateBiasVector : WeightParams
  inputGatePeepholeVector : WeightParams
  forgetGatePeepholeVector : WeightParams
  outputGatePeepholeVector : WeightParams
deriving Repr

/-- Field `weightparams()` of `layer.unidirectionallstm()`: a single bundle. -/
structure UniDirectionalLSTMLayerParams where
  weightParams : LSTMWeightParams
deriving Repr

/-- Field `weightparams(index)` of `layer.bidirectionallstm()`: a repeated field,
read at index 0 and at index 1. -/
structure BiDirectionalLSTMLayerParams where
  weightParams : List LSTMWeightParams
deriving Repr

/-- Fields `weights()` and `bias()` read from `layer.embedding()`. -/
structure EmbeddingLayerParams where
  weights : WeightParams
  bias : WeightParams
deriving Repr

/-- Field `alpha()` read from `layer.activation().prelu()`. -/
structure ActivationPReLU where
  alpha : WeightParams
deriving Repr

/-- Fields `alpha()` and `beta()` read from `layer.activation().parametricsoftplus()`. -/
structure ActivationParametricSoftplus where
  alpha : WeightParams
  beta : WeightParams
deriving Repr

/-- The discriminant `NonlinearityType_case()`. The source names two cases; every
other case of the `oneof` (the unset case included) is `other`, kept with its tag
number. -/
inductive NonlinearityTypeCase
  | kPReLU
  | kParametricSoftplus
  | other (tag : Nat)
deriving DecidableEq, Repr

/-- The message `ActivationParams`: the `oneof NonlinearityType`. -/
inductive ActivationParams
  | prelu (p : ActivationPReLU)
  | parametricsoftplus (p : ActivationParametricSoftplus)
  | other (tag : Nat)
deriving Repr

/-- The discriminant accessor of an activation. -/
def ActivationParams.NonlinearityType_case : ActivationParams → NonlinearityTypeCase
  | .prelu _ => .kPReLU
  | .parametricsoftplus _ => .kParametricSoftplus
  | .other tag => .other tag

/-- Fields `classname()` and `description()` read from `layer.custom()`. -/
structure CustomLayerParams where
  className : String
  description : String
deriving DecidableEq, Repr

/-- Parameters of a layer variant none of whose fields `getWeightParamType` reads.
Whatever the variant carries is kept uninterpreted: its weight tensors, if any,
and its remaining scalar content. -/
structure UninspectedParams where
  tensors : List WeightParams
  scalars : List Nat
deriving Repr

/-- The discriminant `layer_case()`: the enumerators listed by the `switch` of
`getWeightParamType`. -/
inductive LayerCase
  | kConvolution | kInnerProduct | kBatchnorm | kLoadConstant | kScale
  | kSimpleRecurrent | kGru | kUniDirectionalLSTM | kEmbedding
  | kBiDirectionalLSTM | kActivation
  | kPooling | kPadding | kConcat | kLrn | kSoftmax | kSplit | kAdd | kMultiply
  | kUnary | kUpsample | kBias | kL2Normalize | kReshape | kFlatten | kPermute
  | kReduce | kCrop | kAverage | kMax | kMin | kDot | kMvn | kSequenceRepeat
  | kReorganizeData | kSlice
  | kCustom
  | LAYER_NOT_SET
deriving DecidableEq, Repr

/-- The message `NeuralNetworkLayer`: the `oneof layer`, one constructor per
enumerator of `LayerCase`. -/
inductive NeuralNetworkLayer
  | convolution (p : ConvolutionLayerParams)
  | innerproduct (p : InnerProductLayerParams)
  | batchnorm (p : BatchnormLayerParams)
  | loadconstant (p : LoadConstantLayerParams)
  | scale (p : ScaleLayerParams)
  | simplerecurrent (p : SimpleRecurrentLayerParams)
  | gru (p : GRULayerParams)
  | unidirectionallstm (p : UniDirectionalLSTMLayerParams)
  | embedding (p : EmbeddingLayerParams)
  | bidirectionallstm (p : BiDirectionalLSTMLayerParams)
  | activation (p : ActivationParams)
  | pooling (p : UninspectedParams)
  | padding (p : UninspectedParams)
  | concat (p : UninspectedParams)
  | lrn (p : UninspectedParams)
  | softmax (p : UninspectedParams)
  | split (p : UninspectedParams)
  | add (p : UninspectedParams)
  | multiply (p : UninspectedParams)
  | unary (p : UninspectedParams)
  | upsample (p : UninspectedParams)
  | bias (p : UninspectedParams)
  | l2normalize (p : UninspectedParams)
  | reshape (p : UninspectedParams)
  | flatten (p : UninspectedParams)
  | permute (p : UninspectedParams)
  | reduce (p : UninspectedParams)
  | crop (p : UninspectedParams)
  | average (p : UninspectedParams)
  | max (p : UninspectedParams)
  | min (p : UninspectedParams)
  | dot (p : UninspectedParams)
  | mvn (p : UninspectedParams)
  | sequencerepeat (p : UninspectedParams)
  | reorganizedata (p : UninspectedParams)
  | slice (p : UninspectedParams)
  | custom (p : CustomLayerParams)
  | notSet
deriving Repr

/-- The discriminant accessor `layer.layer_case()`. -/
def NeuralNetworkLayer.layer_case : NeuralNetworkLayer → LayerCase
  | .convolution _ => .kConvolution
  | .innerproduct _ => .kInnerProduct
  | .batchnorm _ => .kBatchnorm
  | .loadconstant _ => .kLoadConstant
  | .scale _ => .kScale
  | .simplerecurrent _ => .kSimpleRecurrent
  | .gru _ => .kGru
  | .unidirectionallstm _ => .kUniDirectionalLSTM
  | .embedding _ => .kEmbedding
  | .bidirectionallstm _ => .kBiDirectionalLSTM
  | .activation _ => .kActivation
  | .pooling _ => .kPooling
  | .padding _ => .kPadding
  | .concat _ => .kConcat
  | .lrn _ => .kLrn
  | .softmax _ => .kSoftmax
  | .split _ => .kSplit
  | .add _ => .kAdd
  | .multiply _ => .kMultiply
  | .unary _ => .kUnary
  | .upsample _ => .kUpsample
  | .bias _ => .kBias
  | .l2normalize _ => .kL2Normalize
  | .reshape _ => .kReshape
  | .flatten _ => .kFlatten
  | .permute _ => .kPermute
  | .reduce _ => .kReduce
  | .crop _ => .kCrop
  | .average _ => .kAverage
  | .max _ => .kMax
  | .min _ => .kMin
  | .dot _ => .kDot
  | .mvn _ => .kMvn
  | .sequencerepeat _ => .kSequenceRepeat
  | .reorganizedata _ => .kReorganizeData
  | .slice _ => .kSlice
  | .custom _ => .kCustom
  | .notSet => .LAYER_NOT_SET

/-- The accessor `layer.custom()`: the custom parameters when that case is set,
the default instance (empty strings) otherwise. -/
def NeuralNetworkLayer.getCustom : NeuralNetworkLayer → CustomLayerParams
  | .custom p => p
  | _ => { className := "", description := "" }

/-- The message `Specification::Model`: the `oneof Type`. The three cases named by
`getNNSpec` own a layer sequence; every other case (the unset case included) is
`other`, kept with its tag number. -/
inductive Model
  | neuralNetwork (layers : List NeuralNetworkLayer)
  | neuralNetworkRegressor (layers : List NeuralNetworkLayer)
  | neuralNetworkClassifier (layers : List NeuralNetworkLayer)
  | other (tag : Nat)
deriving Repr

/-- What can go wrong when the embedded code runs. -/
inductive Fault
  | indexOutOfRange
  | fuelExhausted
deriving DecidableEq, Repr

/-- The outcome of a run: an ordinary result or a fault. -/
inductive Outcome (α : Type)
  | ok (value : α)
  | fault (f : Fault)
deriving DecidableEq, Repr

/-- Indexing a repeated field, `field.Get(index)`. -/
def repeatedGet {α : Type} (field : List α) (index : Nat) : Outcome α :=
  match field.get? index with
  | some x => .ok x
  | none => .fault .indexOutOfRange

/-! ## The functions of `Utils.cpp` -/

/-- The locator `getNNSpec`: the layer sequence of a network-bearing model,
`none` (the `NULL` pointer) for any other kind. -/
def getNNSpec (model : Model) : Option (List NeuralNetworkLayer) :=
  match model with
  | .neuralNetwork layers => some layers
  | .neuralNetworkRegressor layers => some layers
  | .neuralNetworkClassifier layers => some layers
  | .other _ => none

/-- The loop of `hasCustomLayer` from index `i`. -/
def hasCustomLayerLoop (layers : List NeuralNetworkLayer) : Nat → Nat → Outcome Bool
  | 0, _ => .fault .fuelExhausted
  | fuel + 1, i =>
    if i < layers.length then
      match repeatedGet layers i with
      | .fault f => .fault f
      | .ok layer =>
        if layer.layer_case = LayerCase.kCustom then .ok true
        else hasCustomLayerLoop layers fuel (i + 1)
    else .ok false

/-- The query `CoreML::hasCustomLayer`. -/
def hasCustomLayer (model : Model) : Outcome Bool :=
  match getNNSpec model with
  | some layers => hasCustomLayerLoop layers (layers.length + 1) 0
  | none => .ok false

/-- The loop of `getCustomLayerNamesAndDescriptions` from index `i`, with the
vector `retval` built so far. -/
def getCustomLayerNamesAndDescriptionsLoop (layers : List NeuralNetworkLayer) :
    Nat → Nat → List (String × String) → Outcome (List (String × String))
  | 0, _, _ => .fault .fuelExhausted
  | fuel + 1, i, retval =>
    if i < layers.length then
      match repeatedGet layers i with
      | .fault f => .fault f
      | .ok layer =>
        if layer.layer_case = LayerCase.kCustom then
          getCustomLayerNamesAndDescriptionsLoop layers fuel (i + 1)
            (retval ++ [(layer.getCustom.className, layer.getCustom.description)])
        else getCustomLayerNamesAndDescriptionsLoop layers fuel (i + 1) retval
    else .ok retval

/-- The query `CoreML::getCustomLayerNamesAndDescriptions`. -/
def getCustomLayerNamesAndDescriptions (model : Model) : Outcome (List (String × String)) :=
  match getNNSpec model with
  | some layers => getCustomLayerNamesAndDescriptionsLoop layers (layers.length + 1) 0 []
  | none => .ok []

/-- The recurrent-cell rule `CoreML::getLSTMWeightParamType`. -/
def getLSTMWeightParamType (params : LSTMWeightParams) : WeightParamType :=
  if valueType params.inputGateWeightMatrix = .FLOAT16
      ∨ valueType params.forgetGateWeightMatrix = .FLOAT16
      ∨ valueType params.blockInputWeightMatrix = .FLOAT16
      ∨ valueType params.outputGateWeightMatrix = .FLOAT16
      ∨ valueType params.inputGateRecursionMatrix = .FLOAT16
      ∨ valueType params.forgetGateRecursionMatrix = .FLOAT16
      ∨ valueType params.blockInputRecursionMatrix = .FLOAT16
      ∨ valueType params.outputGateRecursionMatrix = .FLOAT16
      ∨ valueType params.inputGateBiasVector = .FLOAT16
      ∨ valueType params.forgetGateBiasVector = .FLOAT16
      ∨ valueType params.blockInputBiasVector = .FLOAT16
      ∨ valueType params.outputGateBiasVector = .FLOAT16
      ∨ valueType params.inputGatePeepholeVector = .FLOAT16
      ∨ valueType params.forgetGatePeepholeVector = .FLOAT16
      ∨ valueType params.outputGatePeepholeVector = .FLOAT16 then
    .FLOAT16
  else .FLOAT32

/-- The per-layer rule `CoreML::getWeightParamType`. -/
def getWeightParamType (layer : NeuralNetworkLayer) : Outcome WeightParamType :=
  match layer with
  | .convolution p =>
    if valueType p.weights = .FLOAT16 ∨ valueType p.bias = .FLOAT16 then .ok .FLOAT16
    else .ok .FLOAT32
  | .innerproduct p =>
    if valueType p.weights = .FLOAT16 ∨ valueType p.bias = .FLOAT16 then .ok .FLOAT16
    else .ok .FLOAT32
  | .batchnorm p =>
    if valueType p.gamma = .FLOAT16 ∨ valueType p.beta = .FLOAT16
        ∨ valueType p.mean = .FLOAT16 ∨ valueType p.variance = .FLOAT16 then .ok .FLOAT16
    else .ok .FLOAT32
  | .loadconstant p =>
    if valueType p.data = .FLOAT16 then .ok .FLOAT16 else .ok .FLOAT32
  | .scale p =>
    if valueType p.scale = .FLOAT16 ∨ valueType p.bias = .FLOAT16 then .ok .FLOAT16
    else .ok .FLOAT32
  | .simplerecurrent p =>
    if valueType p.weightMatrix = .FLOAT16 ∨ valueType p.recursionMatrix = .FLOAT16
        ∨ valueType p.biasVector = .FLOAT16 then .ok .FLOAT16
    else .ok .FLOAT32
  | .gru p =>
    if valueType p.updateGateWeightMatrix = .FLOAT16
        ∨ valueType p.resetGateWeightMatrix = .FLOAT16
        ∨ valueType p.outputGateWeightMatrix = .FLOAT16
        ∨ valueType p.updateGateRecursionMatrix = .FLOAT16
        ∨ valueType p.resetGateRecursionMatrix = .FLOAT16
        ∨ valueType p.outputGateRecursionMatrix = .FLOAT16
        ∨ valueType p.updateGateBiasVector = .FLOAT16
        ∨ valueType p.resetGateBiasVector = .FLOAT16
        ∨ valueType p.outputGateBiasVector = .FLOAT16 then .ok .FLOAT16
    else .ok .FLOAT32
  | .unidirectionallstm p => .ok (getLSTMWeightParamType p.weightParams)
  | .embedding p =>
    if valueType p.weights = .FLOAT16 ∨ valueType p.bias = .FLOAT16 then .ok .FLOAT16
    else .ok .FLOAT32
  | .bidirectionallstm p =>
    match repeatedGet p.weightParams 0 with
    | .fault f => .fault f
    | .ok forward =>
      if getLSTMWeightParamType forward = .FLOAT32 then
        match repeatedGet p.weightParams 1 with
        | .fault f => .fault f
        | .ok backward => .ok (getLSTMWeightParamType backward)
      else .ok (getLSTMWeightParamType forward)
  | .activation a =>
    match a with
    | .prelu p => .ok (valueType p.alpha)
    | .parametricsoftplus p =>
      if valueType p.alpha = .FLOAT32 then .ok (valueType p.beta)
      else .ok (valueType p.alpha)
    | .other _ => .ok .FLOAT32
  | .pooling _ | .padding _ | .concat _ | .lrn _ | .softmax _ | .split _ | .add _
  | .multiply _ | .unary _ | .upsample _ | .bias _ | .l2normalize _ | .reshape _
  | .flatten _ | .permute _ | .reduce _ | .crop _ | .average _ | .max _ | .min _
  | .dot _ | .mvn _ | .sequencerepeat _ | .reorganizedata _ | .slice _
  | .custom _ | .notSet => .ok .FLOAT32

/-- The loop of `hasfp16Weights` from index `i`. -/
def hasfp16WeightsLoop (layers : List NeuralNetworkLayer) : Nat → Nat → Outcome Bool
  | 0, _ => .fault .fuelExhausted
  | fuel + 1, i =>
    if i < layers.length then
      match repeatedGet layers i with
      | .fault f => .fault f
      | .ok layer =>
        match getWeightParamType layer with
        | .fault f => .fault f
        | .ok weights =>
          if weights = .FLOAT16 then .ok true
          else hasfp16WeightsLoop layers fuel (i + 1)
    else .ok false

/-- The query `CoreML::hasfp16Weights`. -/
def hasfp16Weights (model : Model) : Outcome Bool :=
  match getNNSpec model with
  | some layers => hasfp16WeightsLoop layers (layers.length + 1) 0
  | none => .ok false

/-! ## Sample documents -/

/-- A tensor stored in the 32-bit representation. -/
def tensor32 : WeightParams := { floatValue := [1065353216], float16Value := [] }

/-- A tensor stored in the 16-bit representation. -/
def tensor16 : WeightParams := { floatValue := [], float16Value := [0, 60] }

/-- A recurrent-cell bundle all of whose tensors are 32-bit. -/
def bundle32 : LSTMWeightParams :=
  { inputGateWeightMatrix := tensor32, forgetGateWeightMatrix := tensor32,
    blockInputWeightMatrix := tensor32, outputGateWeightMatrix := tensor32,
    inputGateRecursionMatrix := tensor32, forgetGateRecursionMatrix := tensor32,
    blockInputRecursionMatrix := tensor32, outputGateRecursionMatrix := tensor32,
    inputGateBiasVector := tensor32, forgetGateBiasVector := tensor32,
    blockInputBiasVector := tensor32, outputGateBiasVector := tensor32,
    inputGatePeepholeVector := tensor32, forgetGatePeepholeVector := tensor32,
    outputGatePeepholeVector := tensor32 }

/-- A convolution with 32-bit weights and a 16-bit bias. -/
def convBias16 : NeuralNetworkLayer := .convolution { weights := tensor32, bias := tensor16 }

/-- A bi-directional LSTM layer that carries no weight bundle at all. -/
def biLSTMNoBundle : NeuralNetworkLayer := .bidirectionallstm { weightParams := [] }


/-! ## The loops as list scans -/

/-- The scan of `hasfp16Weights` over the layers still to visit, by recursion on
the list: the first layer that either faults or classifies 16-bit decides. -/
def precisionScan : List NeuralNetworkLayer → Outcome Bool
  | [] => .ok false
  | layer :: rest =>
    match getWeightParamType layer with
    | .fault f => .fault f
    | .ok weights => if weights = .FLOAT16 then .ok true else precisionScan rest

/-- The pair pushed for a custom layer. -/
def descriptorOf (layer : NeuralNetworkLayer) : String × String :=
  (layer.getCustom.className, layer.getCustom.description)

/-- Whether the layer tag is custom. -/
def isCustom (layer : NeuralNetworkLayer) : Bool :=
  decide (layer.layer_case = LayerCase.kCustom)

/-- The layer sequence the queries scan: the located one, or no layer at all when
the locator yields `NULL`. -/
def locatedLayers (model : Model) : List NeuralNetworkLayer :=
  (getNNSpec model).getD []

/-- Whether a run ended with an ordinary result. -/
def Outcome.isOk {α : Type} : Outcome α → Bool
  | .ok _ => true
  | .fault _ => false

/-- The number of weight bundles a bi-directional LSTM layer carries; `none` for
every other variant. -/
def bundleCount : NeuralNetworkLayer → Option Nat
  | .bidirectionallstm p => some p.weightParams.length
  | _ => none

/-- Well-formedness of a document: every bi-directional LSTM layer of the located
sequence carries exactly two weight bundles, forward and backward. -/
def WellFormed (model : Model) : Prop :=
  ∀ layer ∈ locatedLayers model, ∀ n, bundleCount layer = some n → n = 2

/-- The weaker condition that no bi-directional LSTM layer of the located sequence
lacks one of the two bundles the classifier reads. -/
def BothBundlesPresent (model : Model) : Prop :=
  ∀ layer ∈ locatedLayers model, ∀ n, bundleCount layer = some n → 2 ≤ n

/-- The rule of the spec's table: 16-bit if any of the designated tensors carries
the 16-bit representation, 32-bit otherwise. -/
def spec_anySixteen (designated : List WeightParams) : WeightParamType :=
  if ∃ t ∈ designated, valueType t = WeightParamType.FLOAT16 then .FLOAT16 else .FLOAT32

/-- The descriptor list as the spec words it: in layer order, one
(identifier, description) pair per custom layer and nothing for any other layer. -/
def spec_customDescriptors : List NeuralNetworkLayer → List (String × String)
  | [] => []
  | .custom p :: rest => (p.className, p.description) :: spec_customDescriptors rest
  | _ :: rest => spec_customDescriptors rest

/-- The document with one more layer put at `position` of a layer sequence. -/
def insertAt (layers : List NeuralNetworkLayer) (position : Nat)
    (layer : NeuralNetworkLayer) : List NeuralNetworkLayer :=
  layers.take position ++ layer :: layers.drop position

/-- The document whose layer sequence has `layer` inserted at `position`; a
document of a kind without layer sequence is left as it is. -/
def Model.insertLayer (model : Model) (position : Nat) (layer : NeuralNetworkLayer) : Model :=
  match model with
  | .neuralNetwork layers => .neuralNetwork (insertAt layers position layer)
  | .neuralNetworkRegressor layers => .neuralNetworkRegressor (insertAt layers position layer)
  | .neuralNetworkClassifier layers => .neuralNetworkClassifier (insertAt layers position layer)
  | .other tag => .other tag

/-- The variants for which the rule table designates no tensor. -/
def weightlessCases : List LayerCase :=
  [.kPooling, .kPadding, .kConcat, .kLrn, .kSoftmax, .kSplit, .kAdd, .kMultiply,
   .kUnary, .kUpsample, .kBias, .kL2Normalize, .kReshape, .kFlatten, .kPermute,
   .kReduce, .kCrop, .kAverage, .kMax, .kMin, .kDot, .kMvn, .kSequenceRepeat,
   .kReorganizeData, .kSlice, .kCustom, .LAYER_NOT_SET]

/-- A bundle whose only 16-bit tensor is the forget-gate bias vector. -/
def bundleForgetBias16 : LSTMWeightParams := { bundle32 with forgetGateBiasVector := tensor16 }

/-- A bi-directional LSTM layer with both bundles, all tensors 32-bit. -/
def biLSTM32 : NeuralNetworkLayer := .bidirectionallstm { weightParams := [bundle32, bundle32] }

/-- A pooling layer that happens to carry a 16-bit tensor. -/
def pooling16 : NeuralNetworkLayer := .pooling { tensors := [tensor16], scalars := [2, 2] }

/-- An inner product with 32-bit weights and bias. -/
def innerProduct32 : NeuralNetworkLayer := .innerproduct { weights := tensor32, bias := tensor32 }

/-- The custom layer of the spec's third scenario. -/
def customMyOp : NeuralNetworkLayer := .custom { className := "MyOp", description := "does X" }

/-- The fifteen tensors of a recurrent-cell bundle, in the order
`getLSTMWeightParamType` reads them. -/
def bundleTensors (params : LSTMWeightParams) : List WeightParams :=
  [params.inputGateWeightMatrix, params.forgetGateWeightMatrix,
   params.blockInputWeightMatrix, params.outputGateWeightMatrix,
   params.inputGateRecursionMatrix, params.forgetGateRecursionMatrix,
   params.blockInputRecursionMatrix, params.outputGateRecursionMatrix,
   params.inputGateBiasVector, params.forgetGateBiasVector,
   params.blockInputBiasVector, params.outputGateBiasVector,
   params.inputGatePeepholeVector, params.forgetGatePeepholeVector,
   params.outputGatePeepholeVector]

/-- The tensors the spec's rule table designates for a layer: the fields listed for
its variant, the bundle of a uni-directional LSTM, bundles 0 and 1 of a
bi-directional LSTM as far as the layer carries them, alpha of a PReLU activation,
alpha and beta of a parametric softplus activation, none for any other layer. -/
def spec_designatedTensors : NeuralNetworkLayer → List WeightParams
  | .convolution p => [p.weights, p.bias]
  | .innerproduct p => [p.weights, p.bias]
  | .batchnorm p => [p.gamma, p.beta, p.mean, p.variance]
  | .loadconstant p => [p.data]
  | .scale p => [p.scale, p.bias]
  | .simplerecurrent p => [p.weightMatrix, p.recursionMatrix, p.biasVector]
  | .gru p =>
    [p.updateGateWeightMatrix, p.resetGateWeightMatrix, p.outputGateWeightMatrix,
     p.updateGateRecursionMatrix, p.resetGateRecursionMatrix, p.outputGateRecursionMatrix,
     p.updateGateBiasVector, p.resetGateBiasVector, p.outputGateBiasVector]
  | .unidirectionallstm p => bundleTensors p.weightParams
  | .embedding p => [p.weights, p.bias]
  | .bidirectionallstm p =>
    match p.weightParams with
    | forward :: backward :: _ => bundleTensors forward ++ bundleTensors backward
    | [forward] => bundleTensors forward
    | [] => []
  | .activation (.prelu p) => [p.alpha]
  | .activation (.parametricsoftplus p) => [p.alpha, p.beta]
  | _ => []

/-- A tensor with neither storage representation populated. -/
def WeightParams.Unpopulated (t : WeightParams) : Prop :=
  t.floatValue = [] ∧ t.float16Value = []

/-- A tensor stored in the 32-bit representation only. -/
def WeightParams.Stored32 (t : WeightParams) : Prop :=
  t.floatValue ≠ [] ∧ t.float16Value = []

/-- A layer sequence with the layer at `position` taken out. -/
def removeAt (layers : List NeuralNetworkLayer) (position : Nat) : List NeuralNetworkLayer :=
  layers.take position ++ layers.drop (position + 1)

/-- The document whose layer sequence has the layer at `position` taken out; a
document of a kind without layer sequence is left as it is. -/
def Model.removeLayer (model : Model) (position : Nat) : Model :=
  match model with
  | .neuralNetwork layers => .neuralNetwork (removeAt layers position)
  | .neuralNetworkRegressor layers => .neuralNetworkRegressor (removeAt layers position)
  | .neuralNetworkClassifier layers => .neuralNetworkClassifier (removeAt layers position)
  | .other tag => .other tag

/-- A tensor with neither representation populated. -/
def tensorEmpty : WeightParams := { floatValue := [], float16Value := [] }

/-- A recurrent-cell bundle none of whose tensors is populated. -/
def bundleEmpty : LSTMWeightParams :=
  { inputGateWeightMatrix := tensorEmpty, forgetGateWeightMatrix := tensorEmpty,
    blockInputWeightMatrix := tensorEmpty, outputGateWeightMatrix := tensorEmpty,
    inputGateRecursionMatrix := tensorEmpty, forgetGateRecursionMatrix := tensorEmpty,
    blockInputRecursionMatrix := tensorEmpty, outputGateRecursionMatrix := tensorEmpty,
    inputGateBiasVector := tensorEmpty, forgetGateBiasVector := tensorEmpty,
    blockInputBiasVector := tensorEmpty, outputGateBiasVector := tensorEmpty,
    inputGatePeepholeVector := tensorEmpty, forgetGatePeepholeVector := tensorEmpty,
    outputGatePeepholeVector := tensorEmpty }

/-- A bi-directional LSTM layer that carries the forward bundle only, unpopulated. -/
def biLSTMForwardOnly : NeuralNetworkLayer := .bidirectionallstm { weightParams := [bundleEmpty] }

/-- A PReLU activation whose alpha tensor is unpopulated. -/
def preluEmpty : NeuralNetworkLayer := .activation (.prelu { alpha := tensorEmpty })

/-- A parametric softplus activation with unpopulated alpha and 32-bit beta. -/
def softplusEmpty32 : NeuralNetworkLayer :=
  .activation (.parametricsoftplus { alpha := tensorEmpty, beta := tensor32 })

/-- A pooling layer without content. -/
def poolingPlain : NeuralNetworkLayer := .pooling { tensors := [], scalars := [] }

/-! ## Lemmas on the loops -/

theorem repeatedGet_of_lt {α : Type} (field : List α) (i : Nat) (h : i < field.length) :
    repeatedGet field i = .ok field[i] := by
  unfold repeatedGet
  rw [List.get?_eq_get h]
  rfl

theorem drop_eq_get_cons {α : Type} (field : List α) (i : Nat) (h : i < field.length) :
    field.drop i = field[i] :: field.drop (i + 1) :=
  List.drop_eq_getElem_cons h

theorem hasCustomLayerLoop_eq (layers : List NeuralNetworkLayer) :
    ∀ (fuel i : Nat), layers.length - i < fuel →
      hasCustomLayerLoop layers fuel i = .ok ((layers.drop i).any isCustom) := by
  intro fuel
  induction fuel with
  | zero => intro i h; omega
  | succ fuel ih =>
    intro i h
    unfold hasCustomLayerLoop
    by_cases hi : i < layers.length
    · rw [if_pos hi, repeatedGet_of_lt layers i hi, drop_eq_get_cons layers i hi]
      by_cases hc : layers[i].layer_case = LayerCase.kCustom
      · simp [-List.getElem_cons_drop, hc, isCustom]
      · simp only [hc, if_false]
        rw [ih (i + 1) (by omega)]
        simp [-List.getElem_cons_drop, isCustom, hc]
    · rw [if_neg hi, List.drop_of_length_le (by omega)]
      rfl

theorem getCustomLayerNamesAndDescriptionsLoop_eq (layers : List NeuralNetworkLayer) :
    ∀ (fuel i : Nat) (retval : List (String × String)), layers.length - i < fuel →
      getCustomLayerNamesAndDescriptionsLoop layers fuel i retval
        = .ok (retval ++ ((layers.drop i).filter isCustom).map descriptorOf) := by
  intro fuel
  induction fuel with
  | zero => intro i retval h; omega
  | succ fuel ih =>
    intro i retval h
    unfold getCustomLayerNamesAndDescriptionsLoop
    by_cases hi : i < layers.length
    · rw [if_pos hi, repeatedGet_of_lt layers i hi, drop_eq_get_cons layers i hi]
      by_cases hc : layers[i].layer_case = LayerCase.kCustom
      · simp only [hc, if_true]
        rw [ih (i + 1) _ (by omega)]
        simp [-List.getElem_cons_drop, isCustom, hc, descriptorOf]
      · simp only [hc, if_false]
        rw [ih (i + 1) _ (by omega)]
        simp [-List.getElem_cons_drop, isCustom, hc]
    · rw [if_neg hi, List.drop_of_length_le (by omega)]
      simp

theorem hasfp16WeightsLoop_eq (layers : List NeuralNetworkLayer) :
    ∀ (fuel i : Nat), layers.length - i < fuel →
      hasfp16WeightsLoop layers fuel i = precisionScan (layers.drop i) := by
  intro fuel
  induction fuel with
  | zero => intro i h; omega
  | succ fuel ih =>
    intro i h
    unfold hasfp16WeightsLoop
    by_cases hi : i < layers.length
    · rw [if_pos hi, repeatedGet_of_lt layers i hi, drop_eq_get_cons layers i hi]
      simp only [precisionScan]
      cases hw : getWeightParamType layers[i] with
      | fault f => rfl
      | ok weights =>
        by_cases h16 : weights = WeightParamType.FLOAT16
        · simp [h16]
        · simp only [h16, if_false]
          exact ih (i + 1) (by omega)
    · rw [if_neg hi, List.drop_of_length_le (by omega)]
      rfl

theorem hasCustomLayer_eq (model : Model) :
    hasCustomLayer model = .ok ((locatedLayers model).any isCustom) := by
  unfold hasCustomLayer locatedLayers
  cases h : getNNSpec model with
  | none => rfl
  | some layers =>
    simp only [Option.getD_some]
    rw [hasCustomLayerLoop_eq layers _ 0 (by omega)]
    rfl

theorem getCustomLayerNamesAndDescriptions_eq (model : Model) :
    getCustomLayerNamesAndDescriptions model
      = .ok (((locatedLayers model).filter isCustom).map descriptorOf) := by
  unfold getCustomLayerNamesAndDescriptions locatedLayers
  cases h : getNNSpec model with
  | none => rfl
  | some layers =>
    simp only [Option.getD_some]
    rw [getCustomLayerNamesAndDescriptionsLoop_eq layers _ 0 [] (by omega)]
    rfl

theorem hasfp16Weights_eq (model : Model) :
    hasfp16Weights model = precisionScan (locatedLayers model) := by
  unfold hasfp16Weights locatedLayers
  cases h : getNNSpec model with
  | none => rfl
  | some layers =>
    simp only [Option.getD_some]
    rw [hasfp16WeightsLoop_eq layers _ 0 (by omega)]
    rfl

theorem precisionScan_true_exists (layers : List NeuralNetworkLayer) :
    precisionScan layers = .ok true →
      ∃ layer ∈ layers, getWeightParamType layer = .ok .FLOAT16 := by
  induction layers with
  | nil => intro h; simp [precisionScan] at h
  | cons layer rest ih =>
    intro h
    simp only [precisionScan] at h
    cases hw : getWeightParamType layer with
    | fault f => rw [hw] at h; simp at h
    | ok weights =>
      rw [hw] at h
      by_cases h16 : weights = WeightParamType.FLOAT16
      · exact ⟨layer, List.mem_cons_self _ _, by rw [hw, h16]⟩
      · simp only [h16, if_false] at h
        obtain ⟨l, hl, hl16⟩ := ih h
        exact ⟨l, List.mem_cons_of_mem _ hl, hl16⟩

theorem precisionScan_of_isOk (layers : List NeuralNetworkLayer)
    (h : ∀ layer ∈ layers, (getWeightParamType layer).isOk = true) :
    precisionScan layers
      = .ok (layers.any (fun layer => decide (getWeightParamType layer = .ok .FLOAT16))) := by
  induction layers with
  | nil => rfl
  | cons layer rest ih =>
    have hrest := ih (fun l hl => h l (List.mem_cons_of_mem _ hl))
    have hhead := h layer (List.mem_cons_self _ _)
    simp only [precisionScan, List.any_cons]
    cases hw : getWeightParamType layer with
    | fault f => rw [hw] at hhead; simp [Outcome.isOk] at hhead
    | ok weights =>
      by_cases h16 : weights = WeightParamType.FLOAT16
      · simp [h16]
      · simp [h16, hrest]

theorem spec_customDescriptors_eq (layers : List NeuralNetworkLayer) :
    (layers.filter isCustom).map descriptorOf = spec_customDescriptors layers := by
  induction layers with
  | nil => rfl
  | cons layer rest ih =>
    cases layer <;>
      simp [spec_customDescriptors, isCustom, descriptorOf, NeuralNetworkLayer.layer_case,
        NeuralNetworkLayer.getCustom, ih]

theorem isOk_iff_exists {α : Type} (r : Outcome α) : r.isOk = true ↔ ∃ a, r = .ok a := by
  cases r <;> simp [Outcome.isOk]

theorem getWeightParamType_isOk_of_two (layer : NeuralNetworkLayer)
    (h : ∀ n, bundleCount layer = some n → 2 ≤ n) :
    (getWeightParamType layer).isOk = true := by
  cases layer with
  | bidirectionallstm p =>
    have h2 : 2 ≤ p.weightParams.length := h _ rfl
    obtain ⟨ws⟩ := p
    match ws, h2 with
    | forward :: backward :: rest, _ =>
      simp only [getWeightParamType, repeatedGet, List.get?]
      split <;> rfl
  | activation a =>
    cases a with
    | prelu p => rfl
    | parametricsoftplus p => simp only [getWeightParamType]; split <;> rfl
    | other tag => rfl
  | _ => first | rfl | (simp only [getWeightParamType]; split <;> rfl)

/-! ## The claims -/

/-- C1 (amended). For every model document on which `getWeightParamType` returns a
result for each layer of the located sequence, `hasfp16Weights` returns `true` if and
only if that sequence contains a layer for which `getWeightParamType` returns
`FLOAT16`, returns `false` otherwise, and returns the same for every document whose
located sequence is a permutation of this one. -/
theorem hasfp16Weights_iff_exists_of_layers_ok (model : Model)
    (h : ∀ layer ∈ locatedLayers model, (getWeightParamType layer).isOk = true) :
    (hasfp16Weights model = .ok true
      ↔ ∃ layer ∈ locatedLayers model, getWeightParamType layer = .ok .FLOAT16)
    ∧ (hasfp16Weights model = .ok false
      ↔ ¬ ∃ layer ∈ locatedLayers model, getWeightParamType layer = .ok .FLOAT16)
    ∧ ∀ reordered : Model, (locatedLayers reordered).Perm (locatedLayers model) →
        hasfp16Weights reordered = hasfp16Weights model := by
  have key := precisionScan_of_isOk (locatedLayers model) h
  refine ⟨?_, ?_, ?_⟩
  · rw [hasfp16Weights_eq, key]
    simp
  · rw [hasfp16Weights_eq, key]
    simp
  · intro reordered hperm
    have h2 : ∀ layer ∈ locatedLayers reordered, (getWeightParamType layer).isOk = true :=
      fun layer hl => h layer (hperm.mem_iff.mp hl)
    rw [hasfp16Weights_eq, hasfp16Weights_eq, key, precisionScan_of_isOk _ h2]
    congr 1
    rw [Bool.eq_iff_iff]
    simp only [List.any_eq_true]
    constructor
    · rintro ⟨l, hl, hd⟩
      exact ⟨l, hperm.mem_iff.mp hl, hd⟩
    · rintro ⟨l, hl, hd⟩
      exact ⟨l, hperm.mem_iff.mpr hl, hd⟩

/-- C1 (witness). The amended equivalence at the document
[pooling, convolution with 16-bit bias, bi-directional LSTM with two bundles]. -/
theorem hasfp16Weights_iff_exists_of_layers_ok_witness :
    (∀ layer ∈ locatedLayers (.neuralNetwork [pooling16, convBias16, biLSTM32]),
        (getWeightParamType layer).isOk = true)
    ∧ hasfp16Weights (.neuralNetwork [pooling16, convBias16, biLSTM32]) = .ok true :=
  ⟨by decide,
   (hasfp16Weights_iff_exists_of_layers_ok
      (.neuralNetwork [pooling16, convBias16, biLSTM32]) (by decide)).1.mpr
      ⟨convBias16, by simp [locatedLayers, getNNSpec], by decide⟩⟩

/-- C1 (counterexample). On the document [bi-directional LSTM without bundle,
convolution with 16-bit bias] a layer classifies `FLOAT16`, yet `hasfp16Weights`
does not return `true`: it reads bundle 0 out of range. With the two layers swapped
it returns `true`, so the outcome depends on the order. -/
theorem hasfp16Weights_iff_exists_counterexample :
    ¬ (hasfp16Weights (.neuralNetwork [biLSTMNoBundle, convBias16]) = .ok true
        ↔ ∃ layer ∈ locatedLayers (.neuralNetwork [biLSTMNoBundle, convBias16]),
            getWeightParamType layer = .ok .FLOAT16)
    ∧ hasfp16Weights (.neuralNetwork [biLSTMNoBundle, convBias16]) = .fault .indexOutOfRange
    ∧ hasfp16Weights (.neuralNetwork [convBias16, biLSTMNoBundle]) = .ok true := by
  refine ⟨?_, by decide, by decide⟩
  intro hiff
  have hex : ∃ layer ∈ locatedLayers (.neuralNetwork [biLSTMNoBundle, convBias16]),
      getWeightParamType layer = .ok .FLOAT16 := ⟨convBias16, by simp [locatedLayers, getNNSpec], by decide⟩
  have htrue := hiff.mpr hex
  revert htrue
  decide

/-- C2. For every model document `getCustomLayerNamesAndDescriptions` returns the
list obtained by keeping, in layer order, exactly the custom layers of the located
sequence and mapping each to its (class name, description) pair; this is one pair
per custom layer and none for any other layer, so its length is the number of
custom-tagged layers. -/
theorem getCustomLayerNamesAndDescriptions_eq_filter_map (model : Model) :
    getCustomLayerNamesAndDescriptions model
      = .ok (((locatedLayers model).filter
            (fun layer => decide (layer.layer_case = LayerCase.kCustom))).map
          (fun layer => (layer.getCustom.className, layer.getCustom.description)))
    ∧ getCustomLayerNamesAndDescriptions model
      = .ok (spec_customDescriptors (locatedLayers model))
    ∧ (spec_customDescriptors (locatedLayers model)).length
      = (locatedLayers model).countP
          (fun layer => decide (layer.layer_case = LayerCase.kCustom)) := by
  have h1 := getCustomLayerNamesAndDescriptions_eq model
  refine ⟨h1, ?_, ?_⟩
  · rw [h1, spec_customDescriptors_eq]
  · rw [← spec_customDescriptors_eq, List.length_map, List.countP_eq_length_filter]
    rfl

/-- C3. For every bi-directional LSTM layer with exactly two weight bundles,
`getWeightParamType` returns `FLOAT16` if and only if `getLSTMWeightParamType` returns
`FLOAT16` on the forward bundle or on the backward bundle, and returns `FLOAT32` if
and only if it returns `FLOAT32` on both; when only the forget-gate bias vector of the
backward bundle is 16-bit the layer, and a document made of it, classify 16-bit. -/
theorem getWeightParamType_bidirectionallstm_two_bundles
    (forward backward : LSTMWeightParams) :
    (getWeightParamType (.bidirectionallstm { weightParams := [forward, backward] })
        = .ok .FLOAT16
      ↔ getLSTMWeightParamType forward = .FLOAT16
        ∨ getLSTMWeightParamType backward = .FLOAT16)
    ∧ (getWeightParamType (.bidirectionallstm { weightParams := [forward, backward] })
        = .ok .FLOAT32
      ↔ getLSTMWeightParamType forward = .FLOAT32
        ∧ getLSTMWeightParamType backward = .FLOAT32)
    ∧ getLSTMWeightParamType bundle32 = .FLOAT32
    ∧ getWeightParamType
        (.bidirectionallstm { weightParams := [bundle32, bundleForgetBias16] })
        = .ok .FLOAT16
    ∧ hasfp16Weights
        (.neuralNetwork [.bidirectionallstm { weightParams := [bundle32, bundleForgetBias16] }])
        = .ok true := by
  refine ⟨?_, ?_, by decide, by decide, by decide⟩
  · cases hf : getLSTMWeightParamType forward <;>
      cases hb : getLSTMWeightParamType backward <;>
      simp [getWeightParamType, repeatedGet, hf, hb]
  · cases hf : getLSTMWeightParamType forward <;>
      cases hb : getLSTMWeightParamType backward <;>
      simp [getWeightParamType, repeatedGet, hf, hb]

/-- C4 (amended). `hasCustomLayer` and `getCustomLayerNamesAndDescriptions` return an
ordinary result on every model document, and `hasfp16Weights` returns an ordinary
result on every document in which each bi-directional LSTM layer carries at least
two weight bundles. -/
theorem queries_return_of_both_bundles (model : Model) :
    (∃ found, hasCustomLayer model = .ok found)
    ∧ (∃ pairs, getCustomLayerNamesAndDescriptions model = .ok pairs)
    ∧ (BothBundlesPresent model → ∃ fp16, hasfp16Weights model = .ok fp16) := by
  refine ⟨⟨_, hasCustomLayer_eq model⟩, ⟨_, getCustomLayerNamesAndDescriptions_eq model⟩, ?_⟩
  intro h
  rw [hasfp16Weights_eq]
  exact ⟨_, precisionScan_of_isOk _
    (fun layer hl => getWeightParamType_isOk_of_two layer (h layer hl))⟩

/-- C4 (witness). A document with a custom layer and a bi-directional LSTM layer of
three bundles: no layer lacks a bundle that is read, and the query returns. -/
theorem queries_return_of_both_bundles_witness :
    BothBundlesPresent
        (.neuralNetworkRegressor
          [customMyOp, .bidirectionallstm { weightParams := [bundle32, bundle32, bundle32] }])
    ∧ ∃ fp16, hasfp16Weights
        (.neuralNetworkRegressor
          [customMyOp, .bidirectionallstm { weightParams := [bundle32, bundle32, bundle32] }])
        = .ok fp16 := by
  have hb : BothBundlesPresent
      (.neuralNetworkRegressor
        [customMyOp, .bidirectionallstm { weightParams := [bundle32, bundle32, bundle32] }]) := by
    intro layer hl n hn
    simp only [locatedLayers, getNNSpec, Option.getD_some, List.mem_cons, List.mem_singleton,
      List.not_mem_nil, or_false] at hl
    rcases hl with rfl | rfl
    · simp [customMyOp, bundleCount] at hn
    · simp [bundleCount] at hn
      omega
  exact ⟨hb, (queries_return_of_both_bundles _).2.2 hb⟩

/-- C4 (counterexample). On the document whose single layer is a bi-directional LSTM
without weight bundle, `hasfp16Weights` reads bundle 0 out of range and returns no
ordinary result. -/
theorem hasfp16Weights_total_counterexample :
    hasfp16Weights (.neuralNetwork [biLSTMNoBundle]) = .fault .indexOutOfRange
    ∧ ¬ ∃ fp16, hasfp16Weights (.neuralNetwork [biLSTMNoBundle]) = .ok fp16 := by
  have h : hasfp16Weights (.neuralNetwork [biLSTMNoBundle]) = .fault .indexOutOfRange := by
    decide
  refine ⟨h, ?_⟩
  rintro ⟨fp16, hfp16⟩
  rw [h] at hfp16
  cases hfp16

/-- C5. On a well-formed document, one in which every bi-directional LSTM layer
carries exactly two weight bundles, `hasfp16Weights` returns an ordinary result,
`getWeightParamType` returns an ordinary result on every layer of the sequence, every
index below the size reads a layer, and both bundle reads (index 0 and index 1) of
every bi-directional LSTM layer are in range. -/
theorem hasfp16Weights_returns_of_wellFormed (model : Model) (h : WellFormed model) :
    (∃ fp16, hasfp16Weights model = .ok fp16)
    ∧ (∀ layer ∈ locatedLayers model, ∃ weights, getWeightParamType layer = .ok weights)
    ∧ (∀ i, i < (locatedLayers model).length →
        ∃ layer, repeatedGet (locatedLayers model) i = .ok layer)
    ∧ (∀ p, NeuralNetworkLayer.bidirectionallstm p ∈ locatedLayers model →
        ∃ forward backward, repeatedGet p.weightParams 0 = .ok forward
          ∧ repeatedGet p.weightParams 1 = .ok backward) := by
  have hok : ∀ layer ∈ locatedLayers model, (getWeightParamType layer).isOk = true := by
    intro layer hl
    apply getWeightParamType_isOk_of_two
    intro n hn
    have := h layer hl n hn
    omega
  refine ⟨?_, ?_, ?_, ?_⟩
  · rw [hasfp16Weights_eq]
    exact ⟨_, precisionScan_of_isOk _ hok⟩
  · intro layer hl
    exact (isOk_iff_exists _).mp (hok layer hl)
  · intro i hi
    exact ⟨_, repeatedGet_of_lt _ i hi⟩
  · intro p hp
    have h2 : p.weightParams.length = 2 := h _ hp _ rfl
    exact ⟨_, _, repeatedGet_of_lt _ 0 (by omega), repeatedGet_of_lt _ 1 (by omega)⟩

/-- C5 (witness). The document [pooling, convolution, bi-directional LSTM with two
bundles] is well formed and the classifier returns on it. -/
theorem hasfp16Weights_returns_of_wellFormed_witness :
    WellFormed (.neuralNetworkClassifier [pooling16, innerProduct32, biLSTM32])
    ∧ ∃ fp16, hasfp16Weights (.neuralNetworkClassifier [pooling16, innerProduct32, biLSTM32])
        = .ok fp16 := by
  have hw : WellFormed (.neuralNetworkClassifier [pooling16, innerProduct32, biLSTM32]) := by
    intro layer hl n hn
    simp only [locatedLayers, getNNSpec, Option.getD_some, List.mem_cons, List.mem_singleton,
      List.not_mem_nil, or_false] at hl
    rcases hl with rfl | rfl | rfl
    · simp [pooling16, bundleCount] at hn
    · simp [innerProduct32, bundleCount] at hn
    · simp [biLSTM32, bundleCount] at hn
      omega
  exact ⟨hw, (hasfp16Weights_returns_of_wellFormed _ hw).1⟩

/-- C6. For a convolution, inner product, batch-norm, load-constant, scale, simple
recurrent, GRU or embedding layer, `getWeightParamType` returns `FLOAT16` if at least
one designated tensor of the variant is 16-bit and `FLOAT32` otherwise, the
designated tensors being: convolution weights, bias; inner product weights, bias;
batch-norm gamma, beta, mean, variance; load-constant data; scale scale, bias; simple
recurrent weight matrix, recursion matrix, bias vector; GRU the update, reset and
output gate weight matrices, recursion matrices and bias vectors; embedding weights,
bias. A convolution with 32-bit weights and 16-bit bias classifies 16-bit. -/
theorem getWeightParamType_designated_tensors :
    (∀ p : ConvolutionLayerParams,
      getWeightParamType (.convolution p) = .ok (spec_anySixteen [p.weights, p.bias]))
    ∧ (∀ p : InnerProductLayerParams,
      getWeightParamType (.innerproduct p) = .ok (spec_anySixteen [p.weights, p.bias]))
    ∧ (∀ p : BatchnormLayerParams,
      getWeightParamType (.batchnorm p)
        = .ok (spec_anySixteen [p.gamma, p.beta, p.mean, p.variance]))
    ∧ (∀ p : LoadConstantLayerParams,
      getWeightParamType (.loadconstant p) = .ok (spec_anySixteen [p.data]))
    ∧ (∀ p : ScaleLayerParams,
      getWeightParamType (.scale p) = .ok (spec_anySixteen [p.scale, p.bias]))
    ∧ (∀ p : SimpleRecurrentLayerParams,
      getWeightParamType (.simplerecurrent p)
        = .ok (spec_anySixteen [p.weightMatrix, p.recursionMatrix, p.biasVector]))
    ∧ (∀ p : GRULayerParams,
      getWeightParamType (.gru p)
        = .ok (spec_anySixteen
            [p.updateGateWeightMatrix, p.resetGateWeightMatrix, p.outputGateWeightMatrix,
             p.updateGateRecursionMatrix, p.resetGateRecursionMatrix,
             p.outputGateRecursionMatrix,
             p.updateGateBiasVector, p.resetGateBiasVector, p.outputGateBiasVector]))
    ∧ (∀ p : EmbeddingLayerParams,
      getWeightParamType (.embedding p) = .ok (spec_anySixteen [p.weights, p.bias]))
    ∧ (∀ designated : List WeightParams,
      (spec_anySixteen designated = .FLOAT16
        ↔ ∃ t ∈ designated, valueType t = .FLOAT16)
      ∧ (spec_anySixteen designated = .FLOAT32
        ↔ ¬ ∃ t ∈ designated, valueType t = .FLOAT16))
    ∧ valueType tensor32 = .FLOAT32 ∧ valueType tensor16 = .FLOAT16
    ∧ getWeightParamType (.convolution { weights := tensor32, bias := tensor16 })
        = .ok .FLOAT16 := by
  refine ⟨?_, ?_, ?_, ?_, ?_, ?_, ?_, ?_, ?_, by decide, by decide, by decide⟩
  · intro p; simp only [getWeightParamType, spec_anySixteen, List.mem_cons, List.mem_singleton,
      List.not_mem_nil, or_false, exists_eq_or_imp, exists_eq_left, exists_false]; split_ifs <;> rfl
  · intro p; simp only [getWeightParamType, spec_anySixteen, List.mem_cons, List.mem_singleton,
      List.not_mem_nil, or_false, exists_eq_or_imp, exists_eq_left, exists_false]; split_ifs <;> rfl
  · intro p; simp only [getWeightParamType, spec_anySixteen, List.mem_cons, List.mem_singleton,
      List.not_mem_nil, or_false, exists_eq_or_imp, exists_eq_left, exists_false]; split_ifs <;> rfl
  · intro p; simp only [getWeightParamType, spec_anySixteen, List.mem_cons, List.mem_singleton,
      List.not_mem_nil, or_false, exists_eq_or_imp, exists_eq_left, exists_false]; split_ifs <;> rfl
  · intro p; simp only [getWeightParamType, spec_anySixteen, List.mem_cons, List.mem_singleton,
      List.not_mem_nil, or_false, exists_eq_or_imp, exists_eq_left, exists_false]; split_ifs <;> rfl
  · intro p; simp only [getWeightParamType, spec_anySixteen, List.mem_cons, List.mem_singleton,
      List.not_mem_nil, or_false, exists_eq_or_imp, exists_eq_left, exists_false]; split_ifs <;> rfl
  · intro p; simp only [getWeightParamType, spec_anySixteen, List.mem_cons, List.mem_singleton,
      List.not_mem_nil, or_false, exists_eq_or_imp, exists_eq_left, exists_false]; split_ifs <;> rfl
  · intro p; simp only [getWeightParamType, spec_anySixteen, List.mem_cons, List.mem_singleton,
      List.not_mem_nil, or_false, exists_eq_or_imp, exists_eq_left, exists_false]; split_ifs <;> rfl
  · intro designated
    unfold spec_anySixteen
    constructor <;> split <;> simp_all

/-- C7. For every activation layer, `getWeightParamType` returns `FLOAT16` if and only
if the non-linearity is PReLU with a 16-bit alpha, or parametric softplus with a
16-bit alpha or a 16-bit beta; for every other non-linearity it returns `FLOAT32`.
Parametric softplus with 32-bit alpha and 16-bit beta classifies 16-bit. -/
theorem getWeightParamType_activation (a : ActivationParams) :
    (getWeightParamType (.activation a) = .ok .FLOAT16
      ↔ (∃ p, a = .prelu p ∧ valueType p.alpha = .FLOAT16)
        ∨ (∃ p, a = .parametricsoftplus p
            ∧ (valueType p.alpha = .FLOAT16 ∨ valueType p.beta = .FLOAT16)))
    ∧ (a.NonlinearityType_case ≠ .kPReLU → a.NonlinearityType_case ≠ .kParametricSoftplus →
        getWeightParamType (.activation a) = .ok .FLOAT32)
    ∧ getWeightParamType
        (.activation (.parametricsoftplus { alpha := tensor32, beta := tensor16 }))
        = .ok .FLOAT16 := by
  refine ⟨?_, ?_, by decide⟩
  · cases a with
    | prelu p => simp [getWeightParamType]
    | parametricsoftplus p =>
      cases ha : valueType p.alpha <;> cases hb : valueType p.beta <;>
        simp [getWeightParamType, ha, hb]
    | other tag => simp [getWeightParamType]
  · intro h1 h2
    cases a with
    | prelu p => exact absurd rfl h1
    | parametricsoftplus p => exact absurd rfl h2
    | other tag => rfl

/-- C7 (witness). An activation with another non-linearity (tag 40) is neither PReLU
nor parametric softplus and classifies 32-bit. -/
theorem getWeightParamType_activation_witness :
    (ActivationParams.other 40).NonlinearityType_case ≠ .kPReLU
    ∧ (ActivationParams.other 40).NonlinearityType_case ≠ .kParametricSoftplus
    ∧ getWeightParamType (.activation (.other 40)) = .ok .FLOAT32 :=
  ⟨by decide, by decide,
   (getWeightParamType_activation (.other 40)).2.1 (by decide) (by decide)⟩

/-- C8. For every layer whose variant is pooling, padding, concat, LRN, softmax,
split, add, multiply, unary, upsample, bias, L2-normalize, reshape, flatten, permute,
reduce, crop, average, max, min, dot, MVN, sequence-repeat, reorganize-data or slice,
for every custom layer and for every layer with no variant set, `getWeightParamType`
returns `FLOAT32` whatever the layer carries. -/
theorem getWeightParamType_weightless (layer : NeuralNetworkLayer)
    (h : layer.layer_case ∈ weightlessCases) :
    getWeightParamType layer = .ok .FLOAT32 := by
  cases layer <;>
    first | rfl | (exact absurd h (by simp [weightlessCases, NeuralNetworkLayer.layer_case]))

/-- C8 (witness). A pooling layer whose uninspected content holds a 16-bit tensor
classifies 32-bit. -/
theorem getWeightParamType_weightless_witness :
    pooling16.layer_case ∈ weightlessCases ∧ getWeightParamType pooling16 = .ok .FLOAT32 :=
  ⟨by decide, getWeightParamType_weightless pooling16 (by decide)⟩

/-- C9. For every document with a layer sequence and every position in it,
inserting one custom layer at that position makes `getCustomLayerNamesAndDescriptions`
exactly one entry longer, hence never shorter, and makes `hasCustomLayer` return
`true`. -/
theorem insert_custom_layer_grows (model : Model) (layers : List NeuralNetworkLayer)
    (position : Nat) (c : CustomLayerParams)
    (hlayers : getNNSpec model = some layers) (hposition : position ≤ layers.length) :
    ∃ before after,
      getCustomLayerNamesAndDescriptions model = .ok before
      ∧ getCustomLayerNamesAndDescriptions (model.insertLayer position (.custom c)) = .ok after
      ∧ after.length = before.length + 1
      ∧ before.length ≤ after.length
      ∧ hasCustomLayer (model.insertLayer position (.custom c)) = .ok true := by
  have hloc : locatedLayers model = layers := by
    simp [locatedLayers, hlayers]
  have hins : locatedLayers (model.insertLayer position (.custom c))
      = insertAt layers position (.custom c) := by
    cases model with
    | neuralNetwork ls =>
      simp only [getNNSpec, Option.some.injEq] at hlayers
      subst hlayers; rfl
    | neuralNetworkRegressor ls =>
      simp only [getNNSpec, Option.some.injEq] at hlayers
      subst hlayers; rfl
    | neuralNetworkClassifier ls =>
      simp only [getNNSpec, Option.some.injEq] at hlayers
      subst hlayers; rfl
    | other tag => simp [getNNSpec] at hlayers
  have hc : isCustom (.custom c) = true := rfl
  have hlen : ((insertAt layers position (.custom c)).filter isCustom).length
      = (layers.filter isCustom).length + 1 := by
    have hsplit : (layers.filter isCustom).length
        = ((layers.take position).filter isCustom).length
          + ((layers.drop position).filter isCustom).length := by
      rw [← List.length_append, ← List.filter_append, List.take_append_drop]
    rw [hsplit]
    simp only [insertAt, List.filter_append, List.filter_cons, hc, if_true,
      List.length_append, List.length_cons]
    omega
  refine ⟨_, _, getCustomLayerNamesAndDescriptions_eq model,
    getCustomLayerNamesAndDescriptions_eq _, ?_, ?_, ?_⟩
  · rw [hins, hloc, List.length_map, List.length_map, hlen]
  · rw [hins, hloc, List.length_map, List.length_map, hlen]
    omega
  · rw [hasCustomLayer_eq, hins]
    simp [insertAt, hc]

/-- C9 (witness). Inserting the custom layer "MyOp" at position 1 of
[pooling, inner product]. -/
theorem insert_custom_layer_grows_witness :
    getNNSpec (.neuralNetwork [pooling16, innerProduct32]) = some [pooling16, innerProduct32]
    ∧ 1 ≤ [pooling16, innerProduct32].length
    ∧ ∃ before after,
      getCustomLayerNamesAndDescriptions (.neuralNetwork [pooling16, innerProduct32])
        = .ok before
      ∧ getCustomLayerNamesAndDescriptions
          ((Model.neuralNetwork [pooling16, innerProduct32]).insertLayer 1
            (.custom { className := "MyOp", description := "does X" })) = .ok after
      ∧ after.length = before.length + 1
      ∧ before.length ≤ after.length
      ∧ hasCustomLayer
          ((Model.neuralNetwork [pooling16, innerProduct32]).insertLayer 1
            (.custom { className := "MyOp", description := "does X" })) = .ok true :=
  ⟨rfl, by decide,
   insert_custom_layer_grows (.neuralNetwork [pooling16, innerProduct32])
     [pooling16, innerProduct32] 1 { className := "MyOp", description := "does X" }
     rfl (by decide)⟩

/-- C10. For every model document `hasCustomLayer` returns `true` if and only if the
located layer sequence exists and contains a layer whose tag is custom; it returns
`false` exactly when the locator yields `NULL` or no layer of the sequence is
custom. -/
theorem hasCustomLayer_iff_exists_custom (model : Model) :
    (hasCustomLayer model = .ok true
      ↔ ∃ layers, getNNSpec model = some layers
          ∧ ∃ layer ∈ layers, layer.layer_case = LayerCase.kCustom)
    ∧ (hasCustomLayer model = .ok false
      ↔ getNNSpec model = none
          ∨ ∃ layers, getNNSpec model = some layers
              ∧ ∀ layer ∈ layers, layer.layer_case ≠ LayerCase.kCustom) := by
  rw [hasCustomLayer_eq]
  cases h : getNNSpec model with
  | none => simp [locatedLayers, h]
  | some layers => simp [locatedLayers, h, isCustom]

theorem spec_anySixteen_eq_sixteen (designated : List WeightParams) :
    spec_anySixteen designated = .FLOAT16 ↔ ∃ t ∈ designated, valueType t = .FLOAT16 := by
  unfold spec_anySixteen
  split <;> simp_all

theorem spec_anySixteen_eq_thirtyTwo (designated : List WeightParams) :
    spec_anySixteen designated = .FLOAT32 ↔ ∀ t ∈ designated, valueType t ≠ .FLOAT16 := by
  unfold spec_anySixteen
  split <;> simp_all

/-- C11. For every model document whose top-level kind is not the generic network,
the regressor or the classifier, the locator yields `NULL`, `hasCustomLayer` returns
`false`, `getCustomLayerNamesAndDescriptions` returns the empty sequence and
`hasfp16Weights` returns `false` (32-bit). -/
theorem queries_of_other_kind (tag : Nat) :
    getNNSpec (.other tag) = none
    ∧ hasCustomLayer (.other tag) = .ok false
    ∧ getCustomLayerNamesAndDescriptions (.other tag) = .ok []
    ∧ hasfp16Weights (.other tag) = .ok false :=
  ⟨rfl, rfl, rfl, rfl⟩

/-- C12. For a generic network, regressor or classifier document whose layer sequence
is empty, `hasCustomLayer` returns `false`, `getCustomLayerNamesAndDescriptions`
returns the empty sequence and `hasfp16Weights` returns `false` (32-bit). -/
theorem queries_of_empty_sequence :
    (hasCustomLayer (.neuralNetwork []) = .ok false
      ∧ getCustomLayerNamesAndDescriptions (.neuralNetwork []) = .ok []
      ∧ hasfp16Weights (.neuralNetwork []) = .ok false)
    ∧ (hasCustomLayer (.neuralNetworkRegressor []) = .ok false
      ∧ getCustomLayerNamesAndDescriptions (.neuralNetworkRegressor []) = .ok []
      ∧ hasfp16Weights (.neuralNetworkRegressor []) = .ok false)
    ∧ (hasCustomLayer (.neuralNetworkClassifier []) = .ok false
      ∧ getCustomLayerNamesAndDescriptions (.neuralNetworkClassifier []) = .ok []
      ∧ hasfp16Weights (.neuralNetworkClassifier []) = .ok false) := by
  refine ⟨⟨?_, ?_, ?_⟩, ⟨?_, ?_, ?_⟩, ⟨?_, ?_, ?_⟩⟩ <;> decide

/-- C13. The locator `getNNSpec` returns, for a generic network, regressor or
classifier document, exactly the layer sequence of that kind (same layers, same
order, same length), and `NULL` for a document of any other top-level kind, the
unset kind included. -/
theorem getNNSpec_cases (layers : List NeuralNetworkLayer) (tag : Nat) :
    getNNSpec (.neuralNetwork layers) = some layers
    ∧ getNNSpec (.neuralNetworkRegressor layers) = some layers
    ∧ getNNSpec (.neuralNetworkClassifier layers) = some layers
    ∧ getNNSpec (.other tag) = none
    ∧ (∀ model located, getNNSpec model = some located →
        model = .neuralNetwork located ∨ model = .neuralNetworkRegressor located
          ∨ model = .neuralNetworkClassifier located) := by
  refine ⟨rfl, rfl, rfl, rfl, ?_⟩
  intro model located h
  cases model with
  | neuralNetwork ls =>
    simp only [getNNSpec, Option.some.injEq] at h
    exact Or.inl (by rw [h])
  | neuralNetworkRegressor ls =>
    simp only [getNNSpec, Option.some.injEq] at h
    exact Or.inr (Or.inl (by rw [h]))
  | neuralNetworkClassifier ls =>
    simp only [getNNSpec, Option.some.injEq] at h
    exact Or.inr (Or.inr (by rw [h]))
  | other t => simp [getNNSpec] at h

/-- C13 (witness). The regressor document [pooling, custom] is located as that very
sequence. -/
theorem getNNSpec_cases_witness :
    getNNSpec (.neuralNetworkRegressor [poolingPlain, customMyOp])
        = some [poolingPlain, customMyOp]
    ∧ (Model.neuralNetworkRegressor [poolingPlain, customMyOp]
          = .neuralNetwork [poolingPlain, customMyOp]
        ∨ Model.neuralNetworkRegressor [poolingPlain, customMyOp]
          = .neuralNetworkRegressor [poolingPlain, customMyOp]
        ∨ Model.neuralNetworkRegressor [poolingPlain, customMyOp]
          = .neuralNetworkClassifier [poolingPlain, customMyOp]) :=
  ⟨rfl, (getNNSpec_cases [] 0).2.2.2.2 _ _ rfl⟩

/-- C14. For every recurrent-cell bundle, `getLSTMWeightParamType` returns `FLOAT16` if
and only if at least one of its fifteen tensors is 16-bit (the input, forget,
block-input and output gate weight matrices, recursion matrices and bias vectors, and
the input, forget and output gate peephole vectors) and `FLOAT32` otherwise; and
`getWeightParamType` of a uni-directional LSTM layer is this rule on the single bundle
of the layer. -/
theorem getLSTMWeightParamType_iff_any (params : LSTMWeightParams) :
    (getLSTMWeightParamType params = .FLOAT16
      ↔ ∃ t ∈ [params.inputGateWeightMatrix, params.forgetGateWeightMatrix,
          params.blockInputWeightMatrix, params.outputGateWeightMatrix,
          params.inputGateRecursionMatrix, params.forgetGateRecursionMatrix,
          params.blockInputRecursionMatrix, params.outputGateRecursionMatrix,
          params.inputGateBiasVector, params.forgetGateBiasVector,
          params.blockInputBiasVector, params.outputGateBiasVector,
          params.inputGatePeepholeVector, params.forgetGatePeepholeVector,
          params.outputGatePeepholeVector], valueType t = .FLOAT16)
    ∧ (getLSTMWeightParamType params = .FLOAT32
      ↔ ∀ t ∈ bundleTensors params, valueType t ≠ .FLOAT16)
    ∧ getLSTMWeightParamType params = spec_anySixteen (bundleTensors params)
    ∧ getWeightParamType (.unidirectionallstm { weightParams := params })
        = .ok (getLSTMWeightParamType params) := by
  have h3 : getLSTMWeightParamType params = spec_anySixteen (bundleTensors params) := by
    simp only [getLSTMWeightParamType, spec_anySixteen, bundleTensors, List.mem_cons,
      List.mem_singleton, List.not_mem_nil, or_false, exists_eq_or_imp, exists_eq_left,
      exists_false]
  refine ⟨?_, ?_, h3, rfl⟩
  · rw [h3]
    exact spec_anySixteen_eq_sixteen _
  · rw [h3]
    exact spec_anySixteen_eq_thirtyTwo _

theorem valueType_of_unpopulated_or_stored32 (t : WeightParams)
    (h : t.Unpopulated ∨ t.Stored32) : valueType t = .FLOAT32 := by
  have h16 : t.float16Value = [] := by
    rcases h with h | h <;> exact h.2
  simp [valueType, h16]

theorem getWeightParamType_of_designated_thirtyTwo (layer : NeuralNetworkLayer)
    (hb : ∀ n, bundleCount layer = some n → 2 ≤ n)
    (h : ∀ t ∈ spec_designatedTensors layer, valueType t = .FLOAT32) :
    getWeightParamType layer = .ok .FLOAT32 := by
  cases layer with
  | bidirectionallstm p =>
    have h2 : 2 ≤ p.weightParams.length := hb _ rfl
    obtain ⟨ws⟩ := p
    match ws, h2, h with
    | forward :: backward :: rest, _, h =>
      simp [spec_designatedTensors, bundleTensors] at h
      simp [getWeightParamType, repeatedGet, getLSTMWeightParamType, h]
  | unidirectionallstm p =>
    simp [spec_designatedTensors, bundleTensors] at h
    simp [getWeightParamType, getLSTMWeightParamType, h]
  | activation a =>
    cases a with
    | prelu p =>
      simp [spec_designatedTensors] at h
      simp [getWeightParamType, h]
    | parametricsoftplus p =>
      simp [spec_designatedTensors] at h
      simp [getWeightParamType, h]
    | other tag => rfl
  | convolution p => simp [spec_designatedTensors] at h; simp [getWeightParamType, h]
  | innerproduct p => simp [spec_designatedTensors] at h; simp [getWeightParamType, h]
  | batchnorm p => simp [spec_designatedTensors] at h; simp [getWeightParamType, h]
  | loadconstant p => simp [spec_designatedTensors] at h; simp [getWeightParamType, h]
  | scale p => simp [spec_designatedTensors] at h; simp [getWeightParamType, h]
  | simplerecurrent p => simp [spec_designatedTensors] at h; simp [getWeightParamType, h]
  | gru p => simp [spec_designatedTensors] at h; simp [getWeightParamType, h]
  | embedding p => simp [spec_designatedTensors] at h; simp [getWeightParamType, h]
  | _ => rfl

theorem precisionScan_of_all_thirtyTwo (layers : List NeuralNetworkLayer)
    (h : ∀ layer ∈ layers, getWeightParamType layer = .ok .FLOAT32) :
    precisionScan layers = .ok false := by
  induction layers with
  | nil => rfl
  | cons layer rest ih =>
    simp only [precisionScan, h layer (List.mem_cons_self _ _)]
    exact ih (fun l hl => h l (List.mem_cons_of_mem _ hl))

theorem precisionScan_append_thirtyTwo (front back : List NeuralNetworkLayer)
    (layer : NeuralNetworkLayer) (h : getWeightParamType layer = .ok .FLOAT32) :
    precisionScan (front ++ layer :: back) = precisionScan (front ++ back) := by
  induction front with
  | nil => simp [precisionScan, h]
  | cons first rest ih =>
    show precisionScan (first :: (rest ++ layer :: back)) = precisionScan (first :: (rest ++ back))
    simp only [precisionScan, ih]

theorem getWeightParamType_of_weightless (layer : NeuralNetworkLayer)
    (h : layer.layer_case ∈ weightlessCases) :
    getWeightParamType layer = .ok .FLOAT32 := by
  cases layer <;>
    first | rfl | (exact absurd h (by simp [weightlessCases, NeuralNetworkLayer.layer_case]))

/-- C15 (amended). A weight tensor with neither storage representation populated is
treated as not 16-bit: on a document in which each bi-directional LSTM layer carries
at least two weight bundles and every designated tensor of every layer is either
unpopulated or stored as 32-bit, `getWeightParamType` returns `FLOAT32` on every
layer, whatever its variant (PReLU and parametric softplus activations included),
and `hasfp16Weights` returns `false` (32-bit). -/
theorem hasfp16Weights_of_no_sixteen (model : Model) (hb : BothBundlesPresent model)
    (h : ∀ layer ∈ locatedLayers model, ∀ t ∈ spec_designatedTensors layer,
      t.Unpopulated ∨ t.Stored32) :
    (∀ t : WeightParams, t.Unpopulated → valueType t ≠ .FLOAT16)
    ∧ (∀ layer ∈ locatedLayers model, getWeightParamType layer = .ok .FLOAT32)
    ∧ hasfp16Weights model = .ok false := by
  have hlayers : ∀ layer ∈ locatedLayers model, getWeightParamType layer = .ok .FLOAT32 := by
    intro layer hl
    exact getWeightParamType_of_designated_thirtyTwo layer (hb layer hl)
      (fun t ht => valueType_of_unpopulated_or_stored32 t (h layer hl t ht))
  refine ⟨?_, hlayers, ?_⟩
  · intro t ht
    rw [valueType_of_unpopulated_or_stored32 t (Or.inl ht)]
    decide
  · rw [hasfp16Weights_eq]
    exact precisionScan_of_all_thirtyTwo _ hlayers

/-- C15 (witness). The document [PReLU with unpopulated alpha, parametric softplus
with unpopulated alpha and 32-bit beta, bi-directional LSTM with an unpopulated and a
32-bit bundle] classifies 32-bit. -/
theorem hasfp16Weights_of_no_sixteen_witness :
    BothBundlesPresent
        (.neuralNetwork [preluEmpty, softplusEmpty32,
          .bidirectionallstm { weightParams := [bundleEmpty, bundle32] }])
    ∧ getWeightParamType preluEmpty = .ok .FLOAT32
    ∧ hasfp16Weights
        (.neuralNetwork [preluEmpty, softplusEmpty32,
          .bidirectionallstm { weightParams := [bundleEmpty, bundle32] }]) = .ok false := by
  have hb : BothBundlesPresent
      (.neuralNetwork [preluEmpty, softplusEmpty32,
        .bidirectionallstm { weightParams := [bundleEmpty, bundle32] }]) := by
    intro layer hl n hn
    simp only [locatedLayers, getNNSpec, Option.getD_some, List.mem_cons, List.mem_singleton,
      List.not_mem_nil, or_false] at hl
    rcases hl with rfl | rfl | rfl
    · simp [preluEmpty, bundleCount] at hn
    · simp [softplusEmpty32, bundleCount] at hn
    · simp [bundleCount] at hn
      omega
  have h := hasfp16Weights_of_no_sixteen _ hb (by
    intro layer hl t ht
    simp only [locatedLayers, getNNSpec, Option.getD_some, List.mem_cons, List.mem_singleton,
      List.not_mem_nil, or_false] at hl
    rcases hl with rfl | rfl | rfl
    · simp [preluEmpty, spec_designatedTensors] at ht
      subst ht
      exact Or.inl ⟨rfl, rfl⟩
    · simp [softplusEmpty32, spec_designatedTensors] at ht
      rcases ht with rfl | rfl
      · exact Or.inl ⟨rfl, rfl⟩
      · exact Or.inr ⟨by decide, rfl⟩
    · simp [spec_designatedTensors, bundleTensors, bundleEmpty, bundle32] at ht
      rcases ht with rfl | rfl
      · exact Or.inl ⟨rfl, rfl⟩
      · exact Or.inr ⟨by decide, rfl⟩)
  exact ⟨hb, h.2.1 preluEmpty (by simp [locatedLayers, getNNSpec]), h.2.2⟩

/-- C15 (counterexample). A bi-directional LSTM layer that carries only a forward
bundle, all tensors unpopulated: every designated tensor is unpopulated, yet
`getWeightParamType` does not return `FLOAT32`, it reads bundle 1 out of range, and so
does `hasfp16Weights` on the document made of this layer. -/
theorem getWeightParamType_of_no_sixteen_counterexample :
    (∀ t ∈ spec_designatedTensors biLSTMForwardOnly, t.Unpopulated ∨ t.Stored32)
    ∧ getWeightParamType biLSTMForwardOnly = .fault .indexOutOfRange
    ∧ getWeightParamType biLSTMForwardOnly ≠ .ok .FLOAT32
    ∧ hasfp16Weights (.neuralNetwork [biLSTMForwardOnly]) = .fault .indexOutOfRange := by
  refine ⟨?_, by decide, by decide, by decide⟩
  intro t ht
  simp [biLSTMForwardOnly, spec_designatedTensors, bundleTensors, bundleEmpty] at ht
  subst ht
  exact Or.inl ⟨rfl, rfl⟩

theorem locatedLayers_insertLayer (model : Model) (position : Nat)
    (layer : NeuralNetworkLayer) :
    locatedLayers (model.insertLayer position layer) = locatedLayers model
    ∨ locatedLayers (model.insertLayer position layer)
        = insertAt (locatedLayers model) position layer := by
  cases model with
  | other tag => exact Or.inl rfl
  | _ => exact Or.inr rfl

theorem locatedLayers_removeLayer (model : Model) (position : Nat) :
    locatedLayers (model.removeLayer position) = removeAt (locatedLayers model) position := by
  cases model with
  | other tag => simp [locatedLayers, getNNSpec, Model.removeLayer, removeAt]
  | _ => rfl

theorem precisionScan_insertAt (layers : List NeuralNetworkLayer) (position : Nat)
    (layer : NeuralNetworkLayer) (h : getWeightParamType layer = .ok .FLOAT32) :
    precisionScan (insertAt layers position layer) = precisionScan layers := by
  unfold insertAt
  rw [precisionScan_append_thirtyTwo _ _ _ h, List.take_append_drop]

theorem precisionScan_removeAt (layers : List NeuralNetworkLayer) (position : Nat)
    (layer : NeuralNetworkLayer) (hget : layers.get? position = some layer)
    (h : getWeightParamType layer = .ok .FLOAT32) :
    precisionScan (removeAt layers position) = precisionScan layers := by
  obtain ⟨hlt, hval⟩ := List.get?_eq_some.mp hget
  have hdrop : layers.drop position = layer :: layers.drop (position + 1) := by
    rw [drop_eq_get_cons layers position hlt]
    congr 1
  have hsplit : layers = layers.take position ++ layer :: layers.drop (position + 1) := by
    rw [← hdrop, List.take_append_drop]
  unfold removeAt
  conv_rhs => rw [hsplit]
  rw [precisionScan_append_thirtyTwo _ _ _ h]

/-- C16. For every model document `hasCustomLayer` returns `true` if and only if
`getCustomLayerNamesAndDescriptions` returns a non-empty sequence, and `false` if and
only if it returns the empty one. -/
theorem hasCustomLayer_iff_descriptors_nonempty (model : Model) :
    (hasCustomLayer model = .ok true
      ↔ ∃ pairs, getCustomLayerNamesAndDescriptions model = .ok pairs ∧ pairs ≠ [])
    ∧ (hasCustomLayer model = .ok false
      ↔ getCustomLayerNamesAndDescriptions model = .ok []) := by
  rw [hasCustomLayer_eq, getCustomLayerNamesAndDescriptions_eq]
  constructor
  · simp [List.filter_eq_nil_iff]
  · simp [List.filter_eq_nil_iff]

/-- C17. For every layer sequence, the generic network, regressor and classifier
documents that carry it give the same `hasCustomLayer`, the same
`getCustomLayerNamesAndDescriptions` and the same `hasfp16Weights`. -/
theorem queries_independent_of_kind (layers : List NeuralNetworkLayer) :
    (hasCustomLayer (.neuralNetwork layers) = hasCustomLayer (.neuralNetworkRegressor layers)
      ∧ hasCustomLayer (.neuralNetwork layers)
          = hasCustomLayer (.neuralNetworkClassifier layers))
    ∧ (getCustomLayerNamesAndDescriptions (.neuralNetwork layers)
          = getCustomLayerNamesAndDescriptions (.neuralNetworkRegressor layers)
      ∧ getCustomLayerNamesAndDescriptions (.neuralNetwork layers)
          = getCustomLayerNamesAndDescriptions (.neuralNetworkClassifier layers))
    ∧ (hasfp16Weights (.neuralNetwork layers) = hasfp16Weights (.neuralNetworkRegressor layers)
      ∧ hasfp16Weights (.neuralNetwork layers)
          = hasfp16Weights (.neuralNetworkClassifier layers)) :=
  ⟨⟨rfl, rfl⟩, ⟨rfl, rfl⟩, ⟨rfl, rfl⟩⟩

/-- C18. For every document, inserting at any position a layer whose tag is custom or
one of the variants without designated tensor, or removing such a layer from any
position, leaves `hasfp16Weights` unchanged; the document
[pooling, custom("MyOp","does X"), inner product with 32-bit weights and bias]
classifies 32-bit while `hasCustomLayer` is `true`. -/
theorem hasfp16Weights_insert_remove_weightless (model : Model) (position : Nat)
    (layer : NeuralNetworkLayer) (h : layer.layer_case ∈ weightlessCases) :
    hasfp16Weights (model.insertLayer position layer) = hasfp16Weights model
    ∧ ((locatedLayers model).get? position = some layer →
        hasfp16Weights (model.removeLayer position) = hasfp16Weights model)
    ∧ hasfp16Weights (.neuralNetwork [poolingPlain, customMyOp, innerProduct32]) = .ok false
    ∧ hasCustomLayer (.neuralNetwork [poolingPlain, customMyOp, innerProduct32]) = .ok true
    ∧ getCustomLayerNamesAndDescriptions
        (.neuralNetwork [poolingPlain, customMyOp, innerProduct32])
        = .ok [("MyOp", "does X")] := by
  have h32 := getWeightParamType_of_weightless layer h
  refine ⟨?_, ?_, by decide, by decide, by decide⟩
  · rw [hasfp16Weights_eq, hasfp16Weights_eq]
    rcases locatedLayers_insertLayer model position layer with hloc | hloc
    · rw [hloc]
    · rw [hloc, precisionScan_insertAt _ _ _ h32]
  · intro hget
    rw [hasfp16Weights_eq, hasfp16Weights_eq, locatedLayers_removeLayer,
      precisionScan_removeAt _ _ _ hget h32]

/-- C18 (witness). Putting the custom layer "MyOp" at position 1 of
[pooling, convolution with 16-bit bias], and taking it out again, leaves the
classification at 16-bit. -/
theorem hasfp16Weights_insert_remove_weightless_witness :
    customMyOp.layer_case ∈ weightlessCases
    ∧ hasfp16Weights ((Model.neuralNetwork [poolingPlain, convBias16]).insertLayer 1 customMyOp)
        = hasfp16Weights (.neuralNetwork [poolingPlain, convBias16])
    ∧ hasfp16Weights
        ((Model.neuralNetwork [poolingPlain, customMyOp, convBias16]).removeLayer 1)
        = hasfp16Weights (.neuralNetwork [poolingPlain, customMyOp, convBias16])
    ∧ hasfp16Weights (.neuralNetwork [poolingPlain, convBias16]) = .ok true :=
  ⟨by decide,
   (hasfp16Weights_insert_remove_weightless
      (.neuralNetwork [poolingPlain, convBias16]) 1 customMyOp (by decide)).1,
   (hasfp16Weights_insert_remove_weightless
      (.neuralNetwork [poolingPlain, customMyOp, convBias16]) 1 customMyOp (by decide)).2.1 rfl,
   by decide⟩

end CoreML
